import Mathlib

/-!
Shallow embedding of the cloud edition production and persistence coordinator
(src/cloud/config.ts, src/cloud/storage.ts, src/cloud/database.ts,
src/cloud/producer.ts, src/cloud/schema/edition.ts).

JavaScript numbers that can be NaN (the result of parseInt on a non-numeric
string) are modelled by JSNum; NaN-comparisons follow IEEE semantics (always
false).  The wall clock of one invocation is modelled by a single parameter
`now`, the epoch-millisecond instant at which the invocation runs; Date
rendering (toISOString) is implemented over proleptic-Gregorian UTC.  The
Firestore collection is modelled as a list of edition documents, the
object-store bucket and database reachability as a small environment record.
-/

namespace TodayInEmojis

/-- JavaScript number restricted to the values arising in this code base:
either NaN (from parseInt of a non-numeric string) or an integer. -/
inductive JSNum where
  | nan : JSNum
  | val : Int → JSNum
deriving DecidableEq, Repr

/-- JavaScript comparison a < b: false whenever either side is NaN. -/
def JSNum.ltb : JSNum → JSNum → Bool
  | .val a, .val b => decide (a < b)
  | _, _ => false

/-- JavaScript comparison a > b: false whenever either side is NaN. -/
def JSNum.gtb : JSNum → JSNum → Bool
  | .val a, .val b => decide (a > b)
  | _, _ => false

/-- Digits-prefix accumulator for parseInt. -/
def parseIntDigits : List Char → Nat → Option Nat → Option Nat
  | [], _, acc => acc
  | c :: cs, base, acc =>
    if c.isDigit then
      parseIntDigits cs base (some ((acc.getD 0) * 10 + (c.toNat - '0'.toNat)))
    else
      acc

/-- Model of JavaScript parseInt(s, 10): skip leading whitespace, optional
sign, then the longest digit prefix; NaN when no digit is found. -/
def parseInt10 (s : String) : JSNum :=
  let cs := s.toList.dropWhile (fun c => c = ' ' || c = '\t' || c = '\n' || c = '\r')
  let signAndRest : Bool × List Char :=
    match cs with
    | '-' :: rest => (true, rest)
    | '+' :: rest => (false, rest)
    | rest => (false, rest)
  match parseIntDigits signAndRest.2 10 none with
  | none => .nan
  | some n => .val (if signAndRest.1 then -(n : Int) else (n : Int))

/-- Process environment: the named settings read by loadCloudConfig.
A field is none when the variable is unset. -/
structure Env where
  googleCloudProject : Option String
  cloudStorageBucket : Option String
  cloudStorageRegion : Option String
  firestoreDatabase : Option String
  firestoreCollection : Option String
  assetRetentionDays : Option String
  cloudDryRun : Option String
  cloudMode : Option String
  googleApplicationCredentials : Option String
deriving Repr

/-- JavaScript pattern (x || d): the default is taken when the variable is
unset or the empty string (both falsy). -/
def orDefault (v : Option String) (d : String) : String :=
  match v with
  | none => d
  | some s => if s = "" then d else s

/-- CloudConfig of src/cloud/config.ts. -/
structure CloudConfig where
  projectId : String
  storageBucket : String
  storageRegion : String
  firestoreDatabase : String
  firestoreCollection : String
  assetRetentionDays : JSNum
  dryRun : Bool
  mode : String
  credentialsPath : Option String
deriving DecidableEq, Repr

/-- loadCloudConfig of src/cloud/config.ts: resolve every setting from the
environment with its default. -/
def loadCloudConfig (env : Env) : CloudConfig :=
  { projectId := orDefault env.googleCloudProject "today-in-emojis"
    storageBucket := orDefault env.cloudStorageBucket "today-in-emojis-assets"
    storageRegion := orDefault env.cloudStorageRegion "us-central1"
    firestoreDatabase := orDefault env.firestoreDatabase "(default)"
    firestoreCollection := orDefault env.firestoreCollection "editions"
    assetRetentionDays := parseInt10 (orDefault env.assetRetentionDays "30")
    dryRun := env.cloudDryRun = some "true"
    mode := orDefault env.cloudMode "parallel"
    credentialsPath := env.googleApplicationCredentials }

/-- validateConfig of src/cloud/config.ts: throws (models as .error) on a
missing required identifier or on retention < 1 or > 365 under JavaScript
NaN-comparison semantics; the missing-credentials case is only a warning. -/
def validateConfig (config : CloudConfig) : Except String Unit :=
  if config.projectId = "" then
    .error "GOOGLE_CLOUD_PROJECT is required"
  else if config.storageBucket = "" then
    .error "CLOUD_STORAGE_BUCKET is required"
  else if config.assetRetentionDays.ltb (.val 1) || config.assetRetentionDays.gtb (.val 365) then
    .error "ASSET_RETENTION_DAYS must be between 1 and 365"
  else
    .ok ()

/-- Left-pad the decimal rendering of n to two digits. -/
def pad2 (n : Nat) : String :=
  if n < 10 then "0" ++ toString n else toString n

/-- Left-pad the decimal rendering of n to three digits. -/
def pad3 (n : Nat) : String :=
  if n < 10 then "00" ++ toString n
  else if n < 100 then "0" ++ toString n
  else toString n

/-- Left-pad the decimal rendering of n to four digits. -/
def pad4 (n : Nat) : String :=
  if n < 10 then "000" ++ toString n
  else if n < 100 then "00" ++ toString n
  else if n < 1000 then "0" ++ toString n
  else toString n

/-- Left-pad the decimal rendering of n to six digits. -/
def pad6 (n : Nat) : String :=
  let s := toString n
  let k := s.length
  (String.mk (List.replicate (6 - k) '0')) ++ s

/-- Civil date (proleptic Gregorian) from a count of days since 1970-01-01,
after Howard Hinnant, with floor division realised by Euclidean division. -/
def civilFromDays (z0 : Int) : Int × Nat × Nat :=
  let z := z0 + 719468
  let era : Int := z.ediv 146097
  let doe : Nat := (z.emod 146097).toNat
  let yoe : Nat := (doe - doe / 1460 + doe / 36524 - doe / 146096) / 365
  let doy : Nat := doe - (365 * yoe + yoe / 4 - yoe / 100)
  let mp : Nat := (5 * doy + 2) / 153
  let d : Nat := doy - (153 * mp + 2) / 5 + 1
  let m : Nat := if mp < 10 then mp + 3 else mp - 9
  let y : Int := (yoe : Int) + era * 400 + (if m ≤ 2 then 1 else 0)
  (y, m, d)

/-- Render an ISO 8601 year as JavaScript toISOString does: four digits in
[0, 9999], the expanded ±YYYYYY form outside. -/
def padYear (y : Int) : String :=
  if 0 ≤ y ∧ y ≤ 9999 then pad4 y.toNat
  else if y < 0 then "-" ++ pad6 (-y).toNat
  else "+" ++ pad6 y.toNat

/-- Model of new Date(ms).toISOString(): UTC calendar rendering of an epoch
millisecond instant. -/
def toISOString (ms : Int) : String :=
  let days : Int := ms.ediv 86400000
  let msOfDay : Nat := (ms.emod 86400000).toNat
  let ymd := civilFromDays days
  let hh := msOfDay / 3600000
  let mi := msOfDay % 3600000 / 60000
  let ss := msOfDay % 60000 / 1000
  let mss := msOfDay % 1000
  padYear ymd.1 ++ "-" ++ pad2 ymd.2.1 ++ "-" ++ pad2 ymd.2.2 ++ "T" ++
    pad2 hh ++ ":" ++ pad2 mi ++ ":" ++ pad2 ss ++ "." ++ pad3 mss ++ "Z"

/-- Post type tag of src/cloud/schema/edition.ts. -/
inductive PostType where
  | normal : PostType
  | essence : PostType
deriving DecidableEq, Repr

/-- EmojiItem of src/cloud/schema/edition.ts. -/
structure EmojiItem where
  char : String
  label : String
  title : String
  summary : String
  url : String
deriving DecidableEq, Repr

/-- EssenceData of src/cloud/schema/edition.ts (temperature, an AI setting
never computed with, is modelled as an integer). -/
structure EssenceData where
  emotion_label : String
  emoji : String
  rationale : String
  palette : List String
  temperature : Int
  fallback : Bool
deriving DecidableEq, Repr

/-- AssetMetadata of src/cloud/schema/edition.ts. -/
structure AssetMetadata where
  image_url : String
  image_path : String
  expires_at : String
deriving DecidableEq, Repr

/-- SourceMetadata of src/cloud/schema/edition.ts. -/
structure SourceMetadata where
  rss_sources : List String
  model : String
  provider : String
  created_at : String
deriving DecidableEq, Repr

/-- CloudEdition of src/cloud/schema/edition.ts: the persisted document. -/
structure CloudEdition where
  edition_id : String
  date : String
  timestamp : String
  post_type : PostType
  emojis : Option (List EmojiItem)
  essence : Option EssenceData
  assets : AssetMetadata
  source_meta : SourceMetadata
deriving DecidableEq, Repr

/-- ProducerInput of src/cloud/producer.ts. -/
structure ProducerInput where
  date : String
  post_type : PostType
  emojis : Option (List EmojiItem)
  essence : Option EssenceData
  image_buffer : List Nat
  rss_sources : List String
  model : String
  provider : String
deriving DecidableEq, Repr

/-- UploadResult of src/cloud/storage.ts. -/
structure UploadResult where
  url : String
  path : String
  expiresAt : String
deriving DecidableEq, Repr

/-- Split a character list at every dash, as JavaScript date.split(dash)
does; the accumulator holds the current segment reversed. -/
def splitDashAux : List Char → List Char → List (List Char)
  | [], acc => [acc.reverse]
  | c :: cs, acc =>
    if c = '-' then acc.reverse :: splitDashAux cs []
    else splitDashAux cs (c :: acc)

/-- JavaScript s.split on a dash separator. -/
def splitDash (s : String) : List String :=
  (splitDashAux s.toList []).map fun cs => String.mk cs

/-- Render an optional number the way a JavaScript template literal renders
a possibly-undefined variable. -/
def optNatToString : Option Nat → String
  | some n => toString n
  | none => "undefined"

/-- Object-store bucket contents: path to byte payload. -/
abbrev Bucket := List (String × List Nat)

/-- Overwrite-or-create a bucket object, as file.save does. -/
def bucketSave (bucket : Bucket) (path : String) (bytes : List Nat) : Bucket :=
  (List.filter (fun p => decide (¬ p.1 = path)) bucket) ++ [(path, bytes)]

/-- uploadImage of src/cloud/storage.ts.  The path and URL come from the
split date; the expiration is Date.now() plus retention days in
milliseconds.  The dry-run branch and the live branch of the source return
the same url/path/expiresAt formulas; they differ only in whether the
object is saved to the bucket.  A NaN retention makes
new Date(NaN).toISOString() throw a RangeError in both branches, modelled
as .error. -/
def uploadImage (config : CloudConfig) (bucket : Bucket) (now : Nat)
    (imageBuffer : List Nat) (date : String) (type : PostType)
    (index : Option Nat) : Except String (UploadResult × Bucket) :=
  let parts := splitDash date
  let year := parts.getD 0 "undefined"
  let month := parts.getD 1 "undefined"
  let day := parts.getD 2 "undefined"
  let filename :=
    match type with
    | .essence => "essence.png"
    | .normal => "normal-" ++ optNatToString index ++ ".png"
  let path := year ++ "/" ++ month ++ "/" ++ day ++ "/" ++ filename
  let url := "https://storage.googleapis.com/" ++ config.storageBucket ++ "/" ++ path
  match config.assetRetentionDays with
  | .nan => .error "RangeError: Invalid time value"
  | .val d =>
    let expiresAt := toISOString ((now : Int) + d * 86400000)
    if config.dryRun then
      .ok ({ url := url, path := path, expiresAt := expiresAt }, bucket)
    else
      .ok ({ url := url, path := path, expiresAt := expiresAt },
           bucketSave bucket path imageBuffer)

/-- Stable insertion of an edition into a list sorted by timestamp
ascending, keeping earlier-inserted equal timestamps first. -/
def insertByTimestamp (e : CloudEdition) : List CloudEdition → List CloudEdition
  | [] => [e]
  | x :: xs =>
    if decide (x.timestamp ≤ e.timestamp) then x :: insertByTimestamp e xs
    else e :: x :: xs

/-- Sort editions by timestamp ascending (the orderBy timestamp asc of the
Firestore query), as a stable insertion sort. -/
def sortByTimestamp : List CloudEdition → List CloudEdition
  | [] => []
  | x :: xs => insertByTimestamp x (sortByTimestamp xs)

/-- getEditionsByDate of src/cloud/database.ts: empty in dry-run; otherwise
the documents with the given date, ordered by timestamp ascending. -/
def getEditionsByDate (config : CloudConfig) (store : List CloudEdition)
    (date : String) : List CloudEdition :=
  if config.dryRun then []
  else sortByTimestamp (List.filter (fun e => decide (e.date = date)) store)

/-- writeEdition of src/cloud/database.ts: a no-op in dry-run; otherwise an
unconditional upsert keyed by edition_id (docRef.set), overwriting any
document with the same id. -/
def writeEdition (config : CloudConfig) (store : List CloudEdition)
    (edition : CloudEdition) : List CloudEdition :=
  if config.dryRun then store
  else if store.any (fun e => decide (e.edition_id = edition.edition_id)) then
    store.map (fun e => if e.edition_id = edition.edition_id then edition else e)
  else
    store ++ [edition]

/-- generateEditionId of src/cloud/producer.ts. -/
def generateEditionId (date : String) (postType : PostType)
    (sequenceIndex : Nat) : String :=
  match postType with
  | .essence => date ++ "-essence"
  | .normal => date ++ "-normal-" ++ toString sequenceIndex

/-- produceEdition of src/cloud/producer.ts: count the normal editions
already recorded for the date, derive the sequence index and edition id,
upload the image, assemble the edition and persist it.  The invocation
wall clock is the single parameter now (epoch ms); the returned triple is
the edition together with the store and bucket after the invocation. -/
def produceEdition (config : CloudConfig) (store : List CloudEdition)
    (bucket : Bucket) (now : Nat) (input : ProducerInput) :
    Except String (CloudEdition × List CloudEdition × Bucket) :=
  let timestamp := toISOString (now : Int)
  let todayEditions := getEditionsByDate config store input.date
  let normalPostsToday :=
    (List.filter (fun e => decide (e.post_type = .normal)) todayEditions).length
  let sequenceIndex := if input.post_type = .normal then normalPostsToday + 1 else 1
  let editionId := generateEditionId input.date input.post_type sequenceIndex
  match uploadImage config bucket now input.image_buffer input.date input.post_type
      (if input.post_type = .normal then some sequenceIndex else none) with
  | .error e => .error e
  | .ok uploadResult =>
    let edition : CloudEdition :=
      { edition_id := editionId
        date := input.date
        timestamp := timestamp
        post_type := input.post_type
        emojis := if input.post_type = .normal then input.emojis else none
        essence := if input.post_type = .essence then input.essence else none
        assets :=
          { image_url := uploadResult.1.url
            image_path := uploadResult.1.path
            expires_at := uploadResult.1.expiresAt }
        source_meta :=
          { rss_sources := input.rss_sources
            model := input.model
            provider := input.provider
            created_at := timestamp } }
    let newStore := writeEdition config store edition
    .ok (edition, newStore, uploadResult.2)

/-- Reachability of the external services, as seen by the health checks:
whether the bucket exists, and whether the bucket or database calls fail
with a transport error. -/
structure CloudWorld where
  bucketExists : Bool
  bucketCallFails : Bool
  databaseCallFails : Bool
deriving DecidableEq, Repr

/-- checkBucketAccess of src/cloud/storage.ts: unconditionally true in
dry-run; otherwise false on a transport error or a missing bucket. -/
def checkBucketAccess (config : CloudConfig) (world : CloudWorld) : Bool :=
  if config.dryRun then true
  else if world.bucketCallFails then false
  else world.bucketExists

/-- checkDatabaseAccess of src/cloud/database.ts: unconditionally true in
dry-run; otherwise false exactly on a transport error. -/
def checkDatabaseAccess (config : CloudConfig) (world : CloudWorld) : Bool :=
  if config.dryRun then true
  else !world.databaseCallFails

/-- healthCheck of src/cloud/producer.ts: both services must pass. -/
def healthCheck (config : CloudConfig) (world : CloudWorld) : Bool :=
  checkBucketAccess config world && checkDatabaseAccess config world

/-- JavaScript value as handled by removeUndefined: undefined, null, a
scalar (string, number, boolean), an array, or a plain object given as an
entry list. -/
inductive JValue where
  | undef : JValue
  | null : JValue
  | str : String → JValue
  | num : Int → JValue
  | bool : Bool → JValue
  | arr : List JValue → JValue
  | obj : List (String × JValue) → JValue
deriving Repr

/-- Test for the undefined marker (the JavaScript value === undefined
check). -/
def JValue.isUndef : JValue → Bool
  | .undef => true
  | _ => false

mutual

/-- removeUndefined of src/cloud/database.ts: null and undefined are
returned as-is, arrays are mapped elementwise, objects drop entries whose
value is undefined and recurse on the rest, scalars pass through. -/
def removeUndefined : JValue → JValue
  | .undef => .undef
  | .null => .null
  | .str s => .str s
  | .num n => .num n
  | .bool b => .bool b
  | .arr xs => .arr (removeUndefinedList xs)
  | .obj fs => .obj (removeUndefinedObj fs)

/-- Elementwise removeUndefined over an array (obj.map(removeUndefined)). -/
def removeUndefinedList : List JValue → List JValue
  | [] => []
  | x :: xs => removeUndefined x :: removeUndefinedList xs

/-- Entry loop of removeUndefined over an object: skip undefined values,
recurse on the kept ones. -/
def removeUndefinedObj : List (String × JValue) → List (String × JValue)
  | [] => []
  | (k, v) :: fs =>
    if v.isUndef then removeUndefinedObj fs
    else (k, removeUndefined v) :: removeUndefinedObj fs

end

mutual

/-- No undefined occurs anywhere strictly inside the value: neither as an
array element nor as an object entry, at any depth. -/
def undefFree : JValue → Bool
  | .arr xs => undefFreeList xs
  | .obj fs => undefFreeObj fs
  | _ => true

/-- Array elements are not undefined and are themselves undefined-free. -/
def undefFreeList : List JValue → Bool
  | [] => true
  | x :: xs => !x.isUndef && undefFree x && undefFreeList xs

/-- Object entry values are not undefined and are themselves
undefined-free. -/
def undefFreeObj : List (String × JValue) → Bool
  | [] => true
  | (_, v) :: fs => !v.isUndef && undefFree v && undefFreeObj fs

end

mutual

/-- No undefined occurs as an object entry value at any depth (array
elements may still be undefined). -/
def objUndefFree : JValue → Bool
  | .arr xs => objUndefFreeList xs
  | .obj fs => objUndefFreeObj fs
  | _ => true

/-- objUndefFree over the elements of an array. -/
def objUndefFreeList : List JValue → Bool
  | [] => true
  | x :: xs => objUndefFree x && objUndefFreeList xs

/-- Object entry values are not undefined and recursively objUndefFree. -/
def objUndefFreeObj : List (String × JValue) → Bool
  | [] => true
  | (_, v) :: fs => !v.isUndef && objUndefFree v && objUndefFreeObj fs

end

/-! Helper lemmas about removeUndefined. -/

theorem isUndef_removeUndefined (v : JValue) (h : v.isUndef = false) :
    (removeUndefined v).isUndef = false := by
  cases v <;> simp_all [removeUndefined, JValue.isUndef]

mutual

theorem removeUndefined_idem : (v : JValue) →
    removeUndefined (removeUndefined v) = removeUndefined v
  | .undef => rfl
  | .null => rfl
  | .str _ => rfl
  | .num _ => rfl
  | .bool _ => rfl
  | .arr xs => by
    simp only [removeUndefined]
    rw [removeUndefinedList_idem xs]
  | .obj fs => by
    simp only [removeUndefined]
    rw [removeUndefinedObj_idem fs]

theorem removeUndefinedList_idem : (xs : List JValue) →
    removeUndefinedList (removeUndefinedList xs) = removeUndefinedList xs
  | [] => rfl
  | x :: xs => by
    simp only [removeUndefinedList]
    rw [removeUndefined_idem x, removeUndefinedList_idem xs]

theorem removeUndefinedObj_idem : (fs : List (String × JValue)) →
    removeUndefinedObj (removeUndefinedObj fs) = removeUndefinedObj fs
  | [] => rfl
  | (k, v) :: fs => by
    cases h : v.isUndef with
    | true =>
      simp only [removeUndefinedObj, h, if_pos]
      exact removeUndefinedObj_idem fs
    | false =>
      simp only [removeUndefinedObj, h, Bool.false_eq_true, if_false,
        isUndef_removeUndefined v h]
      rw [removeUndefined_idem v, removeUndefinedObj_idem fs]

end

mutual

theorem objUndefFree_removeUndefined : (v : JValue) →
    objUndefFree (removeUndefined v) = true
  | .undef => rfl
  | .null => rfl
  | .str _ => rfl
  | .num _ => rfl
  | .bool _ => rfl
  | .arr xs => by
    simp only [removeUndefined, objUndefFree]
    exact objUndefFreeList_removeUndefinedList xs
  | .obj fs => by
    simp only [removeUndefined, objUndefFree]
    exact objUndefFreeObj_removeUndefinedObj fs

theorem objUndefFreeList_removeUndefinedList : (xs : List JValue) →
    objUndefFreeList (removeUndefinedList xs) = true
  | [] => rfl
  | x :: xs => by
    simp only [removeUndefinedList, objUndefFreeList]
    rw [objUndefFree_removeUndefined x, objUndefFreeList_removeUndefinedList xs]
    rfl

theorem objUndefFreeObj_removeUndefinedObj : (fs : List (String × JValue)) →
    objUndefFreeObj (removeUndefinedObj fs) = true
  | [] => rfl
  | (k, v) :: fs => by
    cases h : v.isUndef with
    | true =>
      simp only [removeUndefinedObj, h, if_pos]
      exact objUndefFreeObj_removeUndefinedObj fs
    | false =>
      simp only [removeUndefinedObj, h, Bool.false_eq_true, if_false,
        objUndefFreeObj, isUndef_removeUndefined v h,
        objUndefFree_removeUndefined v, objUndefFreeObj_removeUndefinedObj fs]
      rfl

end

/-- Claim C7: the pre-write stripping function removeUndefined is
idempotent: applying it twice equals applying it once, for every value. -/
theorem claim7_removeUndefined_idempotent :
    ∀ v : JValue, removeUndefined (removeUndefined v) = removeUndefined v :=
  fun v => removeUndefined_idem v

/-- Claim C6, counterexample: removeUndefined does not remove an undefined
leaf that is a direct element of an array; on the array holding a single
undefined element it returns the array unchanged, so its output still
contains an undefined leaf. -/
theorem claim6_counterexample_array_undef :
    removeUndefined (JValue.arr [JValue.undef]) = JValue.arr [JValue.undef] ∧
    undefFree (removeUndefined (JValue.arr [JValue.undef])) = false :=
  ⟨rfl, rfl⟩

/-- Claim C6, amended: removeUndefined removes every undefined object-entry
value at every depth, including inside objects contained in arrays, while
null and scalar values pass through unchanged; undefined elements that sit
directly inside arrays are preserved. -/
theorem claim6_removeUndefined_strips_object_leaves :
    (∀ v : JValue, objUndefFree (removeUndefined v) = true) ∧
    (∀ s, removeUndefined (JValue.str s) = JValue.str s) ∧
    (∀ n, removeUndefined (JValue.num n) = JValue.num n) ∧
    (∀ b, removeUndefined (JValue.bool b) = JValue.bool b) ∧
    removeUndefined JValue.null = JValue.null ∧
    (∀ xs, removeUndefined (JValue.arr xs) =
      JValue.arr (removeUndefinedList xs)) :=
  ⟨fun v => objUndefFree_removeUndefined v, fun _ => rfl, fun _ => rfl,
    fun _ => rfl, rfl, fun _ => rfl⟩

/-! Helper lemmas about the store adapters and the producer. -/

theorem getEditionsByDate_dry (config : CloudConfig) (h : config.dryRun = true) :
    ∀ (store : List CloudEdition) (date : String),
      getEditionsByDate config store date = [] := by
  intro store date
  unfold getEditionsByDate
  rw [h]
  simp

theorem writeEdition_dry (config : CloudConfig) (h : config.dryRun = true) :
    ∀ (store : List CloudEdition) (e : CloudEdition),
      writeEdition config store e = store := by
  intro store e
  unfold writeEdition
  rw [h]
  simp

theorem mem_writeEdition (config : CloudConfig) (store : List CloudEdition)
    (e : CloudEdition) (h : config.dryRun = false) :
    e ∈ writeEdition config store e := by
  unfold writeEdition
  rw [h]
  simp only [Bool.false_eq_true, if_false]
  by_cases hany : store.any (fun x => decide (x.edition_id = e.edition_id)) = true
  · rw [if_pos hany]
    obtain ⟨x, hx, hid⟩ := List.any_eq_true.mp hany
    exact List.mem_map.mpr ⟨x, hx, by rw [if_pos (of_decide_eq_true hid)]⟩
  · rw [if_neg hany]
    exact List.mem_append_right _ (List.mem_singleton.mpr rfl)

theorem countP_insertByTimestamp (p : CloudEdition → Bool) (e : CloudEdition) :
    ∀ l : List CloudEdition,
      List.countP p (insertByTimestamp e l) = List.countP p (e :: l) := by
  intro l
  induction l with
  | nil => rfl
  | cons x xs ih =>
    unfold insertByTimestamp
    by_cases hx : decide (x.timestamp ≤ e.timestamp) = true
    · rw [if_pos hx]
      simp only [List.countP_cons, ih, List.countP_cons]
      omega
    · rw [if_neg hx]

theorem countP_sortByTimestamp (p : CloudEdition → Bool) :
    ∀ l : List CloudEdition,
      List.countP p (sortByTimestamp l) = List.countP p l := by
  intro l
  induction l with
  | nil => rfl
  | cons x xs ih =>
    unfold sortByTimestamp
    rw [countP_insertByTimestamp, List.countP_cons, List.countP_cons, ih]

theorem length_filter_getEditionsByDate (config : CloudConfig)
    (store : List CloudEdition) (date : String) (h : config.dryRun = false) :
    (List.filter (fun e => decide (e.post_type = PostType.normal))
      (getEditionsByDate config store date)).length
    = List.countP
        (fun e => decide (e.date = date ∧ e.post_type = PostType.normal)) store := by
  unfold getEditionsByDate
  rw [h]
  simp only [Bool.false_eq_true, if_false]
  rw [← List.countP_eq_length_filter]
  rw [countP_sortByTimestamp]
  rw [List.countP_filter]
  have hfun : (fun e : CloudEdition =>
      decide (e.post_type = PostType.normal) && decide (e.date = date))
      = fun e => decide (e.date = date ∧ e.post_type = PostType.normal) := by
    funext e
    simp [Bool.and_comm]
  rw [hfun]

theorem splitDashAux_sep (a : List Char) (rest : List Char) :
    ∀ acc : List Char, (∀ c ∈ a, ¬ c = '-') →
      splitDashAux (a ++ '-' :: rest) acc
        = (acc.reverse ++ a) :: splitDashAux rest [] := by
  induction a with
  | nil =>
    intro acc _
    simp [splitDashAux]
  | cons c a ih =>
    intro acc h
    have hc : ¬ c = '-' := h c (List.mem_cons_self c a)
    simp only [List.cons_append, splitDashAux, if_neg hc]
    show splitDashAux (a ++ '-' :: rest) (c :: acc) = _
    rw [ih (c :: acc) (fun x hx => h x (List.mem_cons_of_mem c hx))]
    simp

theorem splitDashAux_nosep (a : List Char) :
    ∀ acc : List Char, (∀ c ∈ a, ¬ c = '-') →
      splitDashAux a acc = [acc.reverse ++ a] := by
  induction a with
  | nil =>
    intro acc _
    simp [splitDashAux]
  | cons c a ih =>
    intro acc h
    have hc : ¬ c = '-' := h c (List.mem_cons_self c a)
    simp only [splitDashAux, if_neg hc]
    rw [ih (c :: acc) (fun x hx => h x (List.mem_cons_of_mem c hx))]
    simp

theorem splitDash_three (y m dd : String)
    (hy : ∀ c ∈ y.data, ¬ c = '-')
    (hm : ∀ c ∈ m.data, ¬ c = '-')
    (hd : ∀ c ∈ dd.data, ¬ c = '-') :
    splitDash (y ++ "-" ++ m ++ "-" ++ dd) = [y, m, dd] := by
  unfold splitDash
  have hdata : (y ++ "-" ++ m ++ "-" ++ dd).toList
      = y.data ++ '-' :: (m.data ++ '-' :: dd.data) := by
    show (y ++ "-" ++ m ++ "-" ++ dd).data = _
    simp [String.data_append]
  rw [hdata]
  rw [splitDashAux_sep y.data (m.data ++ '-' :: dd.data) [] hy]
  rw [splitDashAux_sep m.data dd.data [] hm]
  rw [splitDashAux_nosep dd.data [] hd]
  simp

/-! Concrete configurations, inputs and store contents used by the
witnesses and counterexamples. -/

/-- Default live configuration (all environment defaults, retention 30,
dry-run off). -/
def cfgLive : CloudConfig :=
  { projectId := "today-in-emojis"
    storageBucket := "today-in-emojis-assets"
    storageRegion := "us-central1"
    firestoreDatabase := "(default)"
    firestoreCollection := "editions"
    assetRetentionDays := JSNum.val 30
    dryRun := false
    mode := "parallel"
    credentialsPath := none }

/-- The same configuration with the dry-run flag on. -/
def cfgDry : CloudConfig := { cfgLive with dryRun := true }

/-- Sample emoji-annotated headline. -/
def sampleEmoji : EmojiItem :=
  { char := "E", label := "l", title := "t", summary := "s", url := "u" }

/-- Sample normal-post production request for 2025-12-24. -/
def inputNormal : ProducerInput :=
  { date := "2025-12-24"
    post_type := PostType.normal
    emojis := some [sampleEmoji]
    essence := none
    image_buffer := [137]
    rss_sources := ["rss"]
    model := "gpt-4o-mini"
    provider := "openai" }

/-- Sample essence payload. -/
def sampleEssence : EssenceData :=
  { emotion_label := "hope", emoji := "H", rationale := "r", palette := ["H"],
    temperature := 1, fallback := false }

/-- Sample essence-post production request for 2025-12-24. -/
def inputEssence : ProducerInput :=
  { inputNormal with
    post_type := PostType.essence
    emojis := none
    essence := some sampleEssence }

/-- A normal edition already recorded for 2025-12-24. -/
def storedNormalEdition : CloudEdition :=
  { edition_id := "2025-12-24-normal-1"
    date := "2025-12-24"
    timestamp := "2025-12-24T10:00:00.000Z"
    post_type := PostType.normal
    emojis := some [sampleEmoji]
    essence := none
    assets :=
      { image_url := "u", image_path := "2025/12/24/normal-1.png",
        expires_at := "x" }
    source_meta :=
      { rss_sources := ["rss"], model := "m", provider := "p",
        created_at := "c" } }

/-- Environment whose retention setting is the non-numeric string abc and
whose other settings are all unset. -/
def envBadRetention : Env :=
  { googleCloudProject := none
    cloudStorageBucket := none
    cloudStorageRegion := none
    firestoreDatabase := none
    firestoreCollection := none
    assetRetentionDays := some "abc"
    cloudDryRun := none
    cloudMode := none
    googleApplicationCredentials := none }

/-- World in which the bucket does not exist and both external calls fail. -/
def hostileWorld : CloudWorld :=
  { bucketExists := false, bucketCallFails := true, databaseCallFails := true }

/-! Claims. -/

/-- Claim C1: with dry-run off (so the store is actually consulted) and a
valid retention number, producing a normal edition for a date for which
the store holds exactly k normal editions yields edition_id equal to
date-normal-(k+1); editions of other dates or of essence type are not
counted. -/
theorem claim1_normal_edition_sequence (config : CloudConfig)
    (store : List CloudEdition) (bucket : Bucket) (now : Nat)
    (input : ProducerInput) (d : Int) (k : Nat)
    (hdry : config.dryRun = false)
    (hret : config.assetRetentionDays = JSNum.val d)
    (hpt : input.post_type = PostType.normal)
    (hk : List.countP
      (fun e => decide (e.date = input.date ∧ e.post_type = PostType.normal))
      store = k) :
    ∃ e s b, produceEdition config store bucket now input = .ok (e, s, b) ∧
      e.edition_id = input.date ++ "-normal-" ++ toString (k + 1) := by
  have hcount := length_filter_getEditionsByDate config store input.date hdry
  rw [hk] at hcount
  unfold produceEdition uploadImage
  rw [hret, hpt, hdry]
  simp only [Bool.false_eq_true, if_false, if_pos rfl]
  rw [hcount]
  exact ⟨_, _, _, rfl, rfl⟩

/-- Claim C1 witness: on the empty store, a normal request for 2025-12-24
is produced as edition 2025-12-24-normal-1. -/
theorem claim1_witness :
    ∃ e s b, produceEdition cfgLive [] [] 1766534400000 inputNormal
        = .ok (e, s, b) ∧
      e.edition_id = "2025-12-24-normal-1" := by
  obtain ⟨e, s, b, h1, h2⟩ := claim1_normal_edition_sequence cfgLive [] []
    1766534400000 inputNormal 30 0 rfl rfl rfl rfl
  refine ⟨e, s, b, h1, ?_⟩
  rw [h2]
  rfl

/-- Claim C2: producing an essence edition yields edition_id equal to
date-essence, for every store state (any number of normal editions) and
either run mode. -/
theorem claim2_essence_edition_id (config : CloudConfig)
    (store : List CloudEdition) (bucket : Bucket) (now : Nat)
    (input : ProducerInput) (d : Int)
    (hret : config.assetRetentionDays = JSNum.val d)
    (hpt : input.post_type = PostType.essence) :
    ∃ e s b, produceEdition config store bucket now input = .ok (e, s, b) ∧
      e.edition_id = input.date ++ "-essence" := by
  unfold produceEdition uploadImage generateEditionId
  rw [hret, hpt]
  cases hdry : config.dryRun <;>
    simp only [Bool.false_eq_true, if_false, if_pos rfl, reduceCtorEq, if_true] <;>
    exact ⟨_, _, _, rfl, rfl⟩

/-- Claim C2 witness: an essence request for 2025-12-24 on a store already
holding a normal edition for that date is produced as 2025-12-24-essence. -/
theorem claim2_witness :
    ∃ e s b, produceEdition cfgLive [storedNormalEdition] [] 1766534400000
        inputEssence = .ok (e, s, b) ∧
      e.edition_id = "2025-12-24-essence" := by
  obtain ⟨e, s, b, h1, h2⟩ := claim2_essence_edition_id cfgLive
    [storedNormalEdition] [] 1766534400000 inputEssence 30 rfl rfl
  refine ⟨e, s, b, h1, ?_⟩
  rw [h2]
  rfl

/-- Claim C3 counterexample: with one normal edition already stored for
2025-12-24, the dry-run production of a normal edition for that date
yields id 2025-12-24-normal-1 while the live production on the same
store, request and clock yields 2025-12-24-normal-2, so the two results
are not equal (the dry-run query sees an empty store). -/
theorem claim3_counterexample :
    (produceEdition cfgDry [storedNormalEdition] [] 1766534400000
        inputNormal).map (fun t => t.1.edition_id)
      = .ok "2025-12-24-normal-1" ∧
    (produceEdition cfgLive [storedNormalEdition] [] 1766534400000
        inputNormal).map (fun t => t.1.edition_id)
      = .ok "2025-12-24-normal-2" ∧
    ("2025-12-24-normal-1" : String) ≠ "2025-12-24-normal-2" :=
  ⟨rfl, rfl, by decide⟩

/-- Claim C3, amended: dry-run production performs no store or bucket
reads or writes — its edition is independent of the store and bucket
state, and store and bucket are returned unchanged — and its edition_id,
asset path and expiration equal those of a non-dry-run run on the same
request, store state and clock, provided the request is an essence
request or the store holds no normal edition for the request's date. -/
theorem claim3_dry_run_respects_state (config configL : CloudConfig)
    (store : List CloudEdition) (bucket : Bucket) (now : Nat)
    (input : ProducerInput) (d : Int)
    (hdry : config.dryRun = true)
    (hL : configL = { config with dryRun := false })
    (hret : config.assetRetentionDays = JSNum.val d)
    (hpre : input.post_type = PostType.essence ∨
      List.countP (fun e => decide (e.date = input.date ∧
        e.post_type = PostType.normal)) store = 0) :
    (∀ (store2 : List CloudEdition) (bucket2 : Bucket),
      (produceEdition config store2 bucket2 now input).map (fun t => t.1)
        = (produceEdition config store bucket now input).map (fun t => t.1)) ∧
    (∃ e eL sL bL,
      produceEdition config store bucket now input = .ok (e, store, bucket) ∧
      produceEdition configL store bucket now input = .ok (eL, sL, bL) ∧
      e.edition_id = eL.edition_id ∧
      e.assets.image_path = eL.assets.image_path ∧
      e.assets.expires_at = eL.assets.expires_at) := by
  have hLdry : configL.dryRun = false := by rw [hL]
  have hLret : configL.assetRetentionDays = JSNum.val d := by
    rw [hL]
    exact hret
  constructor
  · intro store2 bucket2
    unfold produceEdition uploadImage
    rw [hret]
    simp only [getEditionsByDate_dry config hdry, writeEdition_dry config hdry,
      hdry, if_true]
    rfl
  · have hlen := length_filter_getEditionsByDate configL store input.date hLdry
    rcases hpre with hpt | hcount
    · unfold produceEdition uploadImage generateEditionId
      rw [hret, hLret, hpt]
      simp only [getEditionsByDate_dry config hdry, writeEdition_dry config hdry,
        hdry, if_true, reduceCtorEq, if_false, hLdry, Bool.false_eq_true]
      exact ⟨_, _, _, _, rfl, rfl, rfl, rfl, rfl⟩
    · rw [hcount] at hlen
      cases hpt : input.post_type with
      | essence =>
        unfold produceEdition uploadImage generateEditionId
        rw [hret, hLret, hpt]
        simp only [getEditionsByDate_dry config hdry, writeEdition_dry config hdry,
          hdry, if_true, reduceCtorEq, if_false, hLdry, Bool.false_eq_true]
        exact ⟨_, _, _, _, rfl, rfl, rfl, rfl, rfl⟩
      | normal =>
        unfold produceEdition uploadImage generateEditionId
        rw [hret, hLret, hpt]
        simp only [getEditionsByDate_dry config hdry, writeEdition_dry config hdry,
          hdry, if_true, if_pos rfl, hLdry, Bool.false_eq_true, if_false, hlen,
          List.filter_nil, List.length_nil]
        exact ⟨_, _, _, _, rfl, rfl, rfl, rfl, rfl⟩

/-- Claim C3 witness: on the empty store, the dry-run and live productions
of the normal request agree on edition_id, path and expiration, and the
dry run leaves store and bucket untouched. -/
theorem claim3_witness :
    (∀ (store2 : List CloudEdition) (bucket2 : Bucket),
      (produceEdition cfgDry store2 bucket2 1766534400000 inputNormal).map
          (fun t => t.1)
        = (produceEdition cfgDry [] [] 1766534400000 inputNormal).map
          (fun t => t.1)) ∧
    (∃ e eL sL bL,
      produceEdition cfgDry [] [] 1766534400000 inputNormal = .ok (e, [], []) ∧
      produceEdition cfgLive [] [] 1766534400000 inputNormal = .ok (eL, sL, bL) ∧
      e.edition_id = eL.edition_id ∧
      e.assets.image_path = eL.assets.image_path ∧
      e.assets.expires_at = eL.assets.expires_at) :=
  claim3_dry_run_respects_state cfgDry cfgLive [] [] 1766534400000 inputNormal
    30 rfl rfl rfl (Or.inr rfl)

/-- Claim C4: for a retention of d days in [1, 365], the produced edition
expires exactly d days (in milliseconds) after its creation instant: its
expires_at renders the instant now + d * 86400000 ms and its created_at
renders now. -/
theorem claim4_expiration_retention (config : CloudConfig)
    (store : List CloudEdition) (bucket : Bucket) (now : Nat)
    (input : ProducerInput) (d : Int)
    (hret : config.assetRetentionDays = JSNum.val d)
    (_h1 : 1 ≤ d) (_h365 : d ≤ 365) :
    ∃ e s b, produceEdition config store bucket now input = .ok (e, s, b) ∧
      e.assets.expires_at = toISOString ((now : Int) + d * 86400000) ∧
      e.source_meta.created_at = toISOString (now : Int) := by
  unfold produceEdition uploadImage
  rw [hret]
  cases hdry : config.dryRun <;> cases hpt : input.post_type <;>
    simp only [Bool.false_eq_true, if_false, if_pos rfl, reduceCtorEq, if_true] <;>
    exact ⟨_, _, _, rfl, rfl, rfl⟩

/-- Claim C4 witness: retention 30 and creation instant
2025-12-24T00:00:00.000Z give expiration 2026-01-23T00:00:00.000Z. -/
theorem claim4_witness :
    ∃ e s b, produceEdition cfgLive [] [] 1766534400000 inputNormal
        = .ok (e, s, b) ∧
      e.assets.expires_at = "2026-01-23T00:00:00.000Z" ∧
      e.source_meta.created_at = "2025-12-24T00:00:00.000Z" := by
  obtain ⟨e, s, b, h1, h2, h3⟩ := claim4_expiration_retention cfgLive [] []
    1766534400000 inputNormal 30 rfl (by decide) (by decide)
  refine ⟨e, s, b, h1, ?_, ?_⟩
  · rw [h2]
    rfl
  · rw [h3]
    rfl

/-- Claim C5: validateConfig is required to reject every retention value
that is not a number in [1, 365], including the NaN produced by parsing a
non-numeric ASSET_RETENTION_DAYS; the code instead accepts NaN, because
both NaN < 1 and NaN > 365 are false, while genuinely out-of-range
numbers are still rejected. -/
theorem claim5_nan_retention_accepted :
    (loadCloudConfig envBadRetention).assetRetentionDays = JSNum.nan ∧
    validateConfig (loadCloudConfig envBadRetention) = .ok () ∧
    validateConfig
        { (loadCloudConfig envBadRetention) with assetRetentionDays := JSNum.val 0 }
      = .error "ASSET_RETENTION_DAYS must be between 1 and 365" ∧
    validateConfig
        { (loadCloudConfig envBadRetention) with assetRetentionDays := JSNum.val 366 }
      = .error "ASSET_RETENTION_DAYS must be between 1 and 365" :=
  ⟨rfl, rfl, rfl, rfl⟩

/-- Claim C8: the storage path of an uploaded image is the pure function
year/month/day/filename of the request, with filename essence.png for
essence posts and normal-index.png for normal posts. -/
theorem claim8_upload_path (config : CloudConfig) (bucket : Bucket) (now : Nat)
    (imageBuffer : List Nat) (y m dd : String) (type : PostType) (i : Nat)
    (r : Int)
    (hret : config.assetRetentionDays = JSNum.val r)
    (hy : ∀ c ∈ y.data, ¬ c = '-')
    (hm : ∀ c ∈ m.data, ¬ c = '-')
    (hd : ∀ c ∈ dd.data, ¬ c = '-') :
    ∃ res b,
      uploadImage config bucket now imageBuffer (y ++ "-" ++ m ++ "-" ++ dd)
        type (if type = PostType.normal then some i else none) = .ok (res, b) ∧
      res.path = y ++ "/" ++ m ++ "/" ++ dd ++ "/" ++
        (match type with
          | PostType.essence => "essence.png"
          | PostType.normal => "normal-" ++ toString i ++ ".png") := by
  unfold uploadImage
  rw [hret, splitDash_three y m dd hy hm hd]
  cases type with
  | normal =>
    cases hdry : config.dryRun <;> simp [optNatToString]
  | essence =>
    cases hdry : config.dryRun <;> simp [optNatToString]

/-- Claim C8 witness: date 2025-12-24, first normal post, yields path
2025/12/24/normal-1.png. -/
theorem claim8_witness :
    ∃ res b,
      uploadImage cfgLive [] 1766534400000 [137] "2025-12-24" PostType.normal
        (some 1) = .ok (res, b) ∧
      res.path = "2025/12/24/normal-1.png" := by
  obtain ⟨res, b, h1, h2⟩ := claim8_upload_path cfgLive [] 1766534400000 [137]
    "2025" "12" "24" PostType.normal 1 30 rfl (by decide) (by decide) (by decide)
  refine ⟨res, b, h1, ?_⟩
  rw [h2]
  rfl

/-- Claim C9: when the content field matching the post type is present,
the produced edition populates emojis exactly for normal posts and essence
exactly for essence posts, and (outside dry-run) the persisted store
contains that edition. -/
theorem claim9_exactly_one_content (config : CloudConfig)
    (store : List CloudEdition) (bucket : Bucket) (now : Nat)
    (input : ProducerInput) (d : Int)
    (hret : config.assetRetentionDays = JSNum.val d)
    (hpre1 : input.post_type = PostType.normal → input.emojis.isSome = true)
    (hpre2 : input.post_type = PostType.essence → input.essence.isSome = true) :
    ∃ e s b, produceEdition config store bucket now input = .ok (e, s, b) ∧
      (e.emojis.isSome = true ↔ input.post_type = PostType.normal) ∧
      (e.essence.isSome = true ↔ input.post_type = PostType.essence) ∧
      (config.dryRun = false → e ∈ s) := by
  unfold produceEdition uploadImage
  rw [hret]
  cases hpt : input.post_type with
  | normal =>
    have he := hpre1 hpt
    cases hdry : config.dryRun with
    | false =>
      simp only [Bool.false_eq_true, if_false, if_pos rfl, reduceCtorEq, if_true]
      exact ⟨_, _, _, rfl, by simpa using he, by simp, fun _ =>
        mem_writeEdition config store _ hdry⟩
    | true =>
      simp only [Bool.false_eq_true, if_false, if_pos rfl, reduceCtorEq, if_true]
      refine ⟨_, _, _, rfl, by simpa using he, by simp, ?_⟩
      intro hh
      simp at hh
  | essence =>
    have he := hpre2 hpt
    cases hdry : config.dryRun with
    | false =>
      simp only [Bool.false_eq_true, if_false, if_pos rfl, reduceCtorEq, if_true]
      exact ⟨_, _, _, rfl, by simp, by simpa using he, fun _ =>
        mem_writeEdition config store _ hdry⟩
    | true =>
      simp only [Bool.false_eq_true, if_false, if_pos rfl, reduceCtorEq, if_true]
      refine ⟨_, _, _, rfl, by simp, by simpa using he, ?_⟩
      intro hh
      simp at hh

/-- Claim C9 witness: the live normal request is produced with emojis
populated, essence absent, and the edition present in the new store. -/
theorem claim9_witness :
    ∃ e s b, produceEdition cfgLive [] [] 1766534400000 inputNormal
        = .ok (e, s, b) ∧
      (e.emojis.isSome = true ↔ inputNormal.post_type = PostType.normal) ∧
      (e.essence.isSome = true ↔ inputNormal.post_type = PostType.essence) ∧
      (cfgLive.dryRun = false → e ∈ s) :=
  claim9_exactly_one_content cfgLive [] [] 1766534400000 inputNormal 30 rfl
    (fun _ => rfl) (fun h => PostType.noConfusion h)

/-- Claim C10: with the dry-run flag on, both access checks and the health
check report healthy in every world, even one where the bucket does not
exist and every external call fails. -/
theorem claim10_dry_run_health (config : CloudConfig)
    (h : config.dryRun = true) :
    ∀ world : CloudWorld, checkBucketAccess config world = true ∧
      checkDatabaseAccess config world = true ∧
      healthCheck config world = true := by
  intro world
  simp [checkBucketAccess, checkDatabaseAccess, healthCheck, h]

/-- Claim C10 witness: the dry-run configuration reports healthy even in
the world with no bucket and failing calls. -/
theorem claim10_witness :
    checkBucketAccess cfgDry hostileWorld = true ∧
    checkDatabaseAccess cfgDry hostileWorld = true ∧
    healthCheck cfgDry hostileWorld = true :=
  claim10_dry_run_health cfgDry rfl hostileWorld

end TodayInEmojis
